import Mathlib

/-!
Shallow embedding of `dkcli` (`src/main.rs`), an interactive installer front
end that drives a privileged installation daemon over D-Bus.  The embedding
models the pure decision logic of the program: the JSON response envelope,
the asset-selection algorithm inside `set_config`, the `get_progress`
polling loop, the sequence of `set_config` calls, and the `inquire` flow
(with user answers and daemon responses supplied as an environment).
-/

namespace Dkcli

/-- Model of `serde_json::Value`: an arbitrary structured JSON value. -/
inductive Value where
  | null : Value
  | bool (b : Bool) : Value
  | num (n : Int) : Value
  | str (s : String) : Value
  | arr (elems : List Value) : Value
  | obj (fields : List (String × Value)) : Value

/-- Three-way comparison of natural numbers (the order on code points). -/
def cmpNat (a b : Nat) : Ordering :=
  if a < b then Ordering.lt else if a = b then Ordering.eq else Ordering.gt

/-- Lexicographic three-way comparison of character lists by code point. -/
def cmpCharList : List Char → List Char → Ordering
  | [], [] => Ordering.eq
  | [], _ :: _ => Ordering.lt
  | _ :: _, [] => Ordering.gt
  | a :: as, b :: bs =>
    match cmpNat a.toNat b.toNat with
    | Ordering.eq => cmpCharList as bs
    | o => o

/-- Rust `str::cmp` is byte-wise lexicographic comparison on UTF-8, which
coincides with lexicographic comparison of the code-point sequences. -/
def cmpStr (a b : String) : Ordering :=
  cmpCharList a.data b.data

/-- Rust's derived `Ord` for `Option<String>`: `None` sorts below every
`Some`, and two `Some`s compare by `cmpStr`. -/
def cmpOptStr : Option String → Option String → Ordering
  | none, none => Ordering.eq
  | none, some _ => Ordering.lt
  | some _, none => Ordering.gt
  | some a, some b => cmpStr a b

/-- Rust `struct Squashfs` from `main.rs`: one per-architecture image asset of a
variant.  `data` is the optional build tag. -/
structure Squashfs where
  arch : String
  data : Option String
  download_size : Nat
  inst_size : Nat
  path : String
  sha256sum : String
  inodes : Nat
deriving DecidableEq

/-- Rust `struct Variant` from `main.rs`. -/
structure Variant where
  name : String
  dir_name : Option String
  retro : Bool
  squashfs : List Squashfs
deriving DecidableEq

/-- Rust `struct Recipe` from `main.rs`. -/
structure Recipe where
  variants : List Variant
  mirrors : Value

/-- Function `get_arch_name` (the non-powerpc64 version): static mapping from
`std::env::consts::ARCH` to the AOSC OS architecture name. -/
def get_arch_name (rustArch : String) : Option String :=
  match rustArch with
  | "x86_64" => some "amd64"
  | "x86" => some "i486"
  | "powerpc" => some "powerpc"
  | "aarch64" => some "arm64"
  | "mips64" => some "loongson3"
  | "riscv64" => some "riscv64"
  | "loongarch64" => some "loongarch64"
  | _ => none

/-- The filter step of asset selection in `set_config` (line 523-527):
keep the assets whose `arch` equals the host's resolved architecture name
(`get_arch_name().map(|arch| arch == x.arch).unwrap_or(false)`). -/
def squashfsCandidates (archName : Option String) (v : Variant) : List Squashfs :=
  v.squashfs.filter fun x => (archName.map fun arch => arch == x.arch).getD false

/-- The comparator of `sqfs.sort_unstable_by(|a, b| b.data.cmp(&a.data))`
read as a "may come before" relation: `a` may precede `b` exactly when the
comparator applied to `(a, b)` is not `Greater`, i.e. `a.data ≥ b.data`, so
the sort is descending in the build tag. -/
def dataGe (a b : Squashfs) : Prop := cmpOptStr b.data a.data ≠ Ordering.gt

instance : DecidableRel dataGe := fun a b =>
  (inferInstance : Decidable (cmpOptStr b.data a.data ≠ Ordering.gt))

/-- Asset selection in `set_config` (lines 523-529): filter by host
architecture, sort descending by build tag, take the first element.
`sort_unstable_by` leaves the relative order of tied elements unspecified;
we realise it with an insertion sort agreeing with the comparator. -/
def selectSquashfs (archName : Option String) (v : Variant) : Option Squashfs :=
  (List.insertionSort dataGe (squashfsCandidates archName v)).head?

/-! ### The response envelope and `TryFrom<String> for Dbus` -/

/-- Rust `enum DbusResult` from `main.rs`. -/
inductive DbusResult where
  | Ok : DbusResult
  | Error : DbusResult
deriving DecidableEq

/-- Rust `struct Dbus` from `main.rs`: the `{result, data}` envelope every daemon
response decodes to. -/
structure Dbus where
  result : DbusResult
  data : Value

/-- Failure modes of the adapter: the response string does not decode to an
envelope (`serde_json::from_str` fails), or the envelope carries
`result: Error`, in which case `try_from` bails with a message formatting the
`data` payload (`bail!("Failed to execute query: {:#?}", res.data)`). -/
inductive RunFailure where
  | decodeFailed : RunFailure
  | queryFailed (data : Value) : RunFailure

/-- Impl `TryFrom<String> for Dbus`, with JSON parsing abstracted: the input is
the result of `serde_json::from_str::<Dbus>` on the response string (`none`
when parsing fails). -/
def Dbus.tryFromParsed (parsed : Option Dbus) : Except RunFailure Dbus :=
  match parsed with
  | none => Except.error RunFailure.decodeFailed
  | some res =>
    match res.result with
    | DbusResult.Ok => Except.ok res
    | DbusResult.Error => Except.error (RunFailure.queryFailed res.data)

/-- Method `Dbus::run`: dispatches one proxy method, then funnels the returned
string through `Self::try_from`.  With the transport and parse abstracted,
its behaviour on a decoded response is exactly `tryFromParsed`. -/
def Dbus.runParsed (parsedResponse : Option Dbus) : Except RunFailure Dbus :=
  Dbus.tryFromParsed parsedResponse

/-! ### The `get_progress` polling loop -/

/-- Rust `enum ProgressStatus` from `main.rs` (the `v` field of `Working` is
carried but never read by the loop). -/
inductive ProgressStatus where
  | Pending : ProgressStatus
  | Working (step : Nat) (progress : Nat) (v : Nat) : ProgressStatus
  | Error (e : Value) : ProgressStatus
  | Finish : ProgressStatus

/-- Visible actions of one `get_progress` loop iteration: the two
progress-bar updates (`main_pb.set_position(step)`,
`second_pb.set_position(progress)`) and the inter-poll
`sleep(Duration::from_micros(100))`. -/
inductive MonitorEvent where
  | update (step : Nat) (progress : Nat) : MonitorEvent
  | sleep : MonitorEvent
deriving DecidableEq

/-- Outcome of the loop: `Ok(())` on `Finish`, `bail!("{e}")` on `Error(e)`,
or `exhausted` when the supplied observation sequence ran out before a
terminal state (the real loop would keep polling). -/
inductive MonitorOutcome where
  | success : MonitorOutcome
  | failure (e : Value) : MonitorOutcome
  | exhausted : MonitorOutcome

/-- One run of the `get_progress` loop over a sequence of polled
observations: the visible events, the outcome, and the number of
`get_progress` calls issued. -/
structure MonitorRun where
  events : List MonitorEvent
  outcome : MonitorOutcome
  polls : Nat

/-- The `loop` body of `get_progress` (lines 256-278), driven by the
sequence of decoded observations.  `Working` updates both bars and falls
through to the sleep; `Pending` hits `continue`, skipping the sleep;
`Error` bails; `Finish` returns. -/
def get_progress : List ProgressStatus → MonitorRun
  | [] => ⟨[], MonitorOutcome.exhausted, 0⟩
  | obs :: rest =>
    match obs with
    | ProgressStatus.Working step progress _ =>
      let r := get_progress rest
      ⟨MonitorEvent.update step progress :: MonitorEvent.sleep :: r.events,
        r.outcome, r.polls + 1⟩
    | ProgressStatus.Pending =>
      let r := get_progress rest
      ⟨r.events, r.outcome, r.polls + 1⟩
    | ProgressStatus.Error e => ⟨[], MonitorOutcome.failure e, 1⟩
    | ProgressStatus.Finish => ⟨[], MonitorOutcome.success, 1⟩

/-- An observation on which the loop stops: `Finish` or `Error`. -/
def isTerminal : ProgressStatus → Bool
  | ProgressStatus.Error _ => true
  | ProgressStatus.Finish => true
  | _ => false

/-! ### `set_config`: the configuration push -/

/-- Rust `struct DkPartition` from `main.rs` (paths modelled as strings; the
code only ever round-trips them). -/
structure DkPartition where
  path : Option String
  parent_path : Option String
  fs_type : Option String
  size : Nat
deriving DecidableEq

/-- Rust `struct InstallConfig` from `main.rs`. -/
structure InstallConfig where
  offline_install : Bool
  variant : Variant
  fullname : String
  user : String
  password : String
  hostname : String
  timezone : String
  rtc_as_localtime : Bool
  target_part : DkPartition
  efi_disk : Option DkPartition
  locale : String
deriving DecidableEq

/-- The value pushed with one `set_config(field, value)` call.  The code
passes strings; structured payloads built with `serde_json::json!` /
`to_string` are kept symbolic here, with their constituent parts. -/
inductive CfgValue where
  | str (s : String) : CfgValue
  | http (url : String) (hash : String) : CfgValue
  | dir (path : String) : CfgValue
  | user (username : String) (password : String) (full_name : String) : CfgValue
  | part (p : DkPartition) : CfgValue
deriving DecidableEq

/-- Outcome of `set_config`: the ordered list of `set_config(field, value)`
calls issued (daemon assumed to answer `Ok` to each), an early `Err` return
(`.context(...)?`), or a panic (`Option::unwrap` on `None`). -/
inductive SetConfigResult where
  | ok (calls : List (String × CfgValue)) : SetConfigResult
  | err (msg : String) : SetConfigResult
  | panicked : SetConfigResult
deriving DecidableEq

/-- Construction of the `download` field value (lines 532-557): in network
mode a `{Http: {url, hash}}` descriptor from the asset's path and checksum;
in offline mode a `{Dir: ...}` descriptor from the variant's `dir_name`,
which the code obtains with `.unwrap()` — `none` here denotes that panic. -/
def downloadValue (config : InstallConfig) (sqfs : Squashfs) : Option CfgValue :=
  if !config.offline_install then
    some (CfgValue.http ("https://releases.aosc.io/" ++ sqfs.path) sqfs.sha256sum)
  else
    match config.variant.dir_name with
    | none => none
    | some d => some (CfgValue.dir ("/run/livekit/sysroots/" ++ d))

/-- Function `set_config` (lines 521-605): select the squashfs asset for the host
architecture, build the download descriptor (offline mode unwraps the
variant's `dir_name`), then push the configuration fields in program
order. -/
def set_config (archName : Option String) (config : InstallConfig) : SetConfigResult :=
  match selectSquashfs archName config.variant with
  | none => SetConfigResult.err "Squashfs has no entry!"
  | some sqfs =>
    match downloadValue config sqfs with
    | none => SetConfigResult.panicked
    | some dl =>
      SetConfigResult.ok
        ([("download", dl),
          ("locale", CfgValue.str config.locale),
          ("user", CfgValue.user config.user config.password config.fullname),
          ("timezone", CfgValue.str config.timezone),
          ("hostname", CfgValue.str config.hostname),
          ("rtc_as_localtime", CfgValue.str (toString config.rtc_as_localtime)),
          ("swapfile", CfgValue.str "\"Disable\""),
          ("target_partition", CfgValue.part config.target_part)] ++
          match config.efi_disk with
          | some efi => [("efi_partition", CfgValue.part efi)]
          | none => [])

/-! ### The `inquire` flow -/

/-- Rust `struct Device` from `main.rs`. -/
structure Device where
  model : String
  path : String
  size : Nat

/-- Rust `struct Locale` from `main.rs`. -/
structure Locale where
  lang_english : String
  locale : String
  lang : String
  text : String
  data : String
deriving DecidableEq

/-- The daemon methods `inquire` invokes, in order of invocation. -/
inductive DkCall where
  | listDevice : DkCall
  | listPartitions (dev : String) : DkCall
  | isEFI : DkCall
  | isLvmDevice (dev : String) : DkCall
  | getAllEspPartitions : DkCall
deriving DecidableEq

/-- Environment for one `inquire` run: the user's prompt answers and the
daemon's successful responses (a daemon-side error at any call would abort
the whole flow; those paths are not claimed and not modelled). -/
structure InquireEnv where
  is_offline_install : Bool
  recipe : Recipe
  variant_choice : String
  devices : List Device
  device_choice : String
  partitions : List DkPartition
  is_efi : Bool
  is_lvm_device : Bool
  esp_parts : List DkPartition
  partition_choice : String
  efi_choice : String
  fullname : String
  username : String
  password : String
  timezone : String
  locales : List Locale
  locale_choice : String
  hostname : String
  rtc_as_localtime : Bool

/-- Outcome of `inquire`: the built `InstallConfig`, a `bail!` error, or a
panic from one of the `.unwrap()` calls. -/
inductive InquireOutcome where
  | ok (c : InstallConfig) : InquireOutcome
  | err (msg : String) : InquireOutcome
  | panicked : InquireOutcome
deriving DecidableEq

/-- The `find` on the device partition list used for both the target
partition and the selected ESP path (lines 348-357 and 381-390): the first
partition whose `path` renders to the chosen string. -/
def findPartitionByPath (parts : List DkPartition) (choice : String) : Option DkPartition :=
  parts.find? fun x => (x.path.map fun p => p == choice).getD false

/-- Function `inquire` (lines 281-479): the decision flow with prompts and daemon
responses read from `env`, returning the daemon-call trace and the outcome.
Boolean envelope payloads (`is_efi`, `is_lvm_device`) are modelled as the
booleans the code extracts with `as_bool`. -/
def inquire (env : InquireEnv) : List DkCall × InquireOutcome :=
  match env.recipe.variants.find? fun x => x.name == env.variant_choice with
  | none => ([], InquireOutcome.panicked)
  | some variant =>
    let trace := [DkCall.listDevice, DkCall.listPartitions env.device_choice,
      DkCall.isEFI, DkCall.isLvmDevice env.device_choice]
    if env.is_lvm_device then
      (trace, InquireOutcome.err "Installer unsupport LVM Device.")
    else
      match findPartitionByPath env.partitions env.partition_choice with
      | none => (trace, InquireOutcome.panicked)
      | some partition =>
        if env.is_efi then
          let trace := trace ++ [DkCall.getAllEspPartitions]
          if env.esp_parts.isEmpty then
            (trace, InquireOutcome.err "No ESP partition found on device")
          else
            match findPartitionByPath env.partitions env.efi_choice with
            | none => (trace, InquireOutcome.panicked)
            | some efi_part =>
              match env.locales.find? fun x => x.text == env.locale_choice with
              | none => (trace, InquireOutcome.panicked)
              | some locale =>
                (trace, InquireOutcome.ok
                  { offline_install := env.is_offline_install
                    variant := variant
                    fullname := env.fullname
                    user := env.username
                    password := env.password
                    hostname := env.hostname
                    timezone := env.timezone
                    rtc_as_localtime := env.rtc_as_localtime
                    target_part := partition
                    efi_disk := some efi_part
                    locale := locale.data })
        else
          match env.locales.find? fun x => x.text == env.locale_choice with
          | none => (trace, InquireOutcome.panicked)
          | some locale =>
            (trace, InquireOutcome.ok
              { offline_install := env.is_offline_install
                variant := variant
                fullname := env.fullname
                user := env.username
                password := env.password
                hostname := env.hostname
                timezone := env.timezone
                rtc_as_localtime := env.rtc_as_localtime
                target_part := partition
                efi_disk := none
                locale := locale.data })

/-- Returns `true` exactly for the progress-bar-update events of the monitor. -/
def isUpdate : MonitorEvent → Bool
  | MonitorEvent.update _ _ => true
  | MonitorEvent.sleep => false

/-! ### Concrete fixtures for witnesses and counterexamples -/

/-- Scenario A asset `{arch:"arm64", data:"20240101"}`. -/
def scenarioA_a1 : Squashfs :=
  ⟨"arm64", some "20240101", 100, 200, "os-arm64/1.squashfs", "s1", 10⟩

/-- Scenario A asset `{arch:"arm64", data:"20240202"}`. -/
def scenarioA_a2 : Squashfs :=
  ⟨"arm64", some "20240202", 101, 201, "os-arm64/2.squashfs", "s2", 11⟩

/-- Scenario A asset `{arch:"amd64", data:"20240303"}`. -/
def scenarioA_a3 : Squashfs :=
  ⟨"amd64", some "20240303", 102, 202, "os-amd64/3.squashfs", "s3", 12⟩

/-- The scenario A variant holding the three assets. -/
def scenarioA_variant : Variant :=
  ⟨"Desktop", some "desktop", false, [scenarioA_a1, scenarioA_a2, scenarioA_a3]⟩

/-- An `arm64` asset with a missing build tag (`data: None`). -/
def c10_untagged : Squashfs := ⟨"arm64", none, 1, 2, "os-arm64/u.squashfs", "su", 3⟩

/-- An `arm64` asset with a present build tag. -/
def c10_tagged : Squashfs := ⟨"arm64", some "20240101", 1, 2, "os-arm64/t.squashfs", "st", 3⟩

/-- A variant listing the untagged asset before the tagged one. -/
def c10_variant : Variant := ⟨"Server", none, false, [c10_untagged, c10_tagged]⟩

/-- A decoded envelope with `result: Error`. -/
def c2_envelope : Dbus := ⟨DbusResult.Error, Value.str "boom"⟩

/-- A concrete daemon-reported error payload. -/
def c3_payload : Value := Value.str "disk full"

/-- The scenario B observation sequence
`Pending, Pending, Working(1,50), Working(2,80), Finish`. -/
def c8_sequence : List ProgressStatus :=
  [ProgressStatus.Pending, ProgressStatus.Pending, ProgressStatus.Working 1 50 0,
    ProgressStatus.Working 2 80 0, ProgressStatus.Finish]

/-- An arm64 asset for the configuration-push fixtures. -/
def c4_asset : Squashfs := ⟨"arm64", some "20240101", 1, 2, "os-arm64/d.squashfs", "sha", 3⟩

/-- A variant carrying `c4_asset`, with a directory name present. -/
def c4_variant : Variant := ⟨"Desktop", some "desktop", false, [c4_asset]⟩

/-- A concrete target partition. -/
def c4_part : DkPartition := ⟨some "/dev/sda2", some "/dev/sda", some "ext4", 99⟩

/-- A concrete EFI system partition. -/
def c4_esp : DkPartition := ⟨some "/dev/sda1", some "/dev/sda", some "vfat", 1⟩

/-- A network-mode configuration with an EFI partition present. -/
def c4_config : InstallConfig :=
  ⟨false, c4_variant, "Alice", "alice", "pw", "aosc", "Asia/Shanghai", false,
    c4_part, some c4_esp, "en_US.UTF-8"⟩

/-- The `set_config` call sequence the code issues for `c4_config`. -/
def c4_calls : List (String × CfgValue) :=
  [("download", CfgValue.http "https://releases.aosc.io/os-arm64/d.squashfs" "sha"),
    ("locale", CfgValue.str "en_US.UTF-8"),
    ("user", CfgValue.user "alice" "pw" "Alice"),
    ("timezone", CfgValue.str "Asia/Shanghai"),
    ("hostname", CfgValue.str "aosc"),
    ("rtc_as_localtime", CfgValue.str "false"),
    ("swapfile", CfgValue.str "\"Disable\""),
    ("target_partition", CfgValue.part c4_part),
    ("efi_partition", CfgValue.part c4_esp)]

/-- A variant with a matching asset but no directory name. -/
def c6_variant : Variant :=
  ⟨"Desktop", none, false, [⟨"arm64", some "20240101", 1, 2, "os-arm64/c.squashfs", "sc", 3⟩]⟩

/-- An offline-mode configuration over `c6_variant` (whose `dir_name` is
`None`). -/
def c6_config : InstallConfig :=
  ⟨true, c6_variant, "Alice", "alice", "pw", "aosc", "UTC", false,
    ⟨some "/dev/sda2", some "/dev/sda", some "ext4", 99⟩, none, "en_US.UTF-8"⟩

/-- The variant offered and chosen in the `inquire` fixtures. -/
def c5_variant : Variant :=
  ⟨"Desktop", some "desktop", false, [⟨"arm64", some "20240101", 1, 2, "p", "h", 3⟩]⟩

/-- An `inquire` environment whose chosen device is LVM-backed. -/
def c5_env : InquireEnv where
  is_offline_install := true
  recipe := ⟨[c5_variant], Value.null⟩
  variant_choice := "Desktop"
  devices := [⟨"SomeDisk", "/dev/sda", 1000000⟩]
  device_choice := "/dev/sda"
  partitions := [⟨some "/dev/sda1", some "/dev/sda", some "vfat", 1⟩]
  is_efi := false
  is_lvm_device := true
  esp_parts := []
  partition_choice := "/dev/sda1"
  efi_choice := ""
  fullname := "Alice"
  username := "alice"
  password := "pw"
  timezone := "UTC"
  locales := []
  locale_choice := ""
  hostname := "aosc"
  rtc_as_localtime := false

/-- The target partition picked in the C9 fixture. -/
def c9_target : DkPartition := ⟨some "/dev/sda2", some "/dev/sda", some "ext4", 99⟩

/-- The entry for `/dev/sda1` in the device's partition list. -/
def c9_dev_entry : DkPartition := ⟨some "/dev/sda1", some "/dev/sda", some "vfat", 1⟩

/-- The entry for `/dev/sda1` returned by `get_all_esp_partitions` — same
path as `c9_dev_entry` but a different view of the partition (different
fields), to separate which of the two ends up in the configuration. -/
def c9_esp_entry : DkPartition := ⟨some "/dev/sda1", none, none, 7⟩

/-- The locale row chosen in the C9 fixture. -/
def c9_locale : Locale := ⟨"English", "en_US.UTF-8", "en", "English", "en_US.UTF-8"⟩

/-- An `inquire` environment on an EFI host where the chosen ESP path also
occurs in the device partition list. -/
def c9_env : InquireEnv where
  is_offline_install := true
  recipe := ⟨[c5_variant], Value.null⟩
  variant_choice := "Desktop"
  devices := [⟨"SomeDisk", "/dev/sda", 1000000⟩]
  device_choice := "/dev/sda"
  partitions := [c9_dev_entry, c9_target]
  is_efi := true
  is_lvm_device := false
  esp_parts := [c9_esp_entry]
  partition_choice := "/dev/sda2"
  efi_choice := "/dev/sda1"
  fullname := "Alice"
  username := "alice"
  password := "pw"
  timezone := "UTC"
  locales := [c9_locale]
  locale_choice := "English"
  hostname := "aosc"
  rtc_as_localtime := false

/-! ### Order lemmas for the build-tag comparator -/

lemma cmpNat_lt_iff {a b : Nat} : cmpNat a b = Ordering.lt ↔ a < b := by
  unfold cmpNat; split_ifs <;> simp_all

lemma cmpNat_eq_iff {a b : Nat} : cmpNat a b = Ordering.eq ↔ a = b := by
  unfold cmpNat; split_ifs <;> simp_all <;> omega

lemma cmpNat_gt_iff {a b : Nat} : cmpNat a b = Ordering.gt ↔ b < a := by
  unfold cmpNat; split_ifs <;> simp_all <;> omega

lemma cmpCharList_refl : ∀ as : List Char, cmpCharList as as = Ordering.eq
  | [] => rfl
  | a :: as => by
    have h : cmpNat a.toNat a.toNat = Ordering.eq := cmpNat_eq_iff.mpr rfl
    simp [cmpCharList, h, cmpCharList_refl as]

lemma cmpCharList_swap : ∀ as bs : List Char,
    cmpCharList bs as = (cmpCharList as bs).swap
  | [], [] => rfl
  | [], _ :: _ => rfl
  | _ :: _, [] => rfl
  | a :: as, b :: bs => by
    rcases h : cmpNat a.toNat b.toNat with _ | _ | _
    · have h' : cmpNat b.toNat a.toNat = Ordering.gt :=
        cmpNat_gt_iff.mpr (cmpNat_lt_iff.mp h)
      simp [cmpCharList, h, h', Ordering.swap]
    · have h' : cmpNat b.toNat a.toNat = Ordering.eq :=
        cmpNat_eq_iff.mpr (cmpNat_eq_iff.mp h).symm
      simp [cmpCharList, h, h', cmpCharList_swap as bs]
    · have h' : cmpNat b.toNat a.toNat = Ordering.lt :=
        cmpNat_lt_iff.mpr (cmpNat_gt_iff.mp h)
      simp [cmpCharList, h, h', Ordering.swap]

lemma cmpCharList_le_trans : ∀ {as bs cs : List Char},
    cmpCharList as bs ≠ Ordering.gt → cmpCharList bs cs ≠ Ordering.gt →
    cmpCharList as cs ≠ Ordering.gt
  | [], _, [], _, _ => by simp [cmpCharList]
  | [], _, _ :: _, _, _ => by simp [cmpCharList]
  | a :: as, [], cs, h1, _ => by simp [cmpCharList] at h1
  | a :: as, b :: bs, [], _, h2 => by simp [cmpCharList] at h2
  | a :: as, b :: bs, c :: cs, h1, h2 => by
    rcases hab : cmpNat a.toNat b.toNat with _ | _ | _ <;>
      rcases hbc : cmpNat b.toNat c.toNat with _ | _ | _ <;>
        simp [cmpCharList, hab, hbc] at h1 h2 ⊢
    · have : cmpNat a.toNat c.toNat = Ordering.lt :=
        cmpNat_lt_iff.mpr (lt_trans (cmpNat_lt_iff.mp hab) (cmpNat_lt_iff.mp hbc))
      simp [this]
    · have : cmpNat a.toNat c.toNat = Ordering.lt := by
        rw [cmpNat_lt_iff]; rw [← cmpNat_eq_iff.mp hbc]; exact cmpNat_lt_iff.mp hab
      simp [this]
    · have : cmpNat a.toNat c.toNat = Ordering.lt := by
        rw [cmpNat_lt_iff]; rw [cmpNat_eq_iff.mp hab]; exact cmpNat_lt_iff.mp hbc
      simp [this]
    · have : cmpNat a.toNat c.toNat = Ordering.eq := by
        rw [cmpNat_eq_iff]; rw [cmpNat_eq_iff.mp hab]; exact cmpNat_eq_iff.mp hbc
      simp [this]
      exact cmpCharList_le_trans h1 h2

lemma cmpOptStr_not_gt_refl (x : Option String) : cmpOptStr x x ≠ Ordering.gt := by
  cases x with
  | none => simp [cmpOptStr]
  | some a => simp [cmpOptStr, cmpStr, cmpCharList_refl]

lemma cmpOptStr_swap (x y : Option String) : cmpOptStr y x = (cmpOptStr x y).swap := by
  cases x with
  | none =>
    cases y with
    | none => rfl
    | some b => rfl
  | some a =>
    cases y with
    | none => rfl
    | some b =>
      show cmpStr b a = (cmpStr a b).swap
      exact cmpCharList_swap a.data b.data

lemma cmpOptStr_le_trans {x y z : Option String}
    (h1 : cmpOptStr x y ≠ Ordering.gt) (h2 : cmpOptStr y z ≠ Ordering.gt) :
    cmpOptStr x z ≠ Ordering.gt := by
  cases x with
  | none =>
    cases z with
    | none => simp [cmpOptStr]
    | some c => simp [cmpOptStr]
  | some a =>
    cases y with
    | none => simp [cmpOptStr] at h1
    | some b =>
      cases z with
      | none => simp [cmpOptStr] at h2
      | some c =>
        simp only [cmpOptStr, cmpStr] at h1 h2 ⊢
        exact cmpCharList_le_trans h1 h2

instance : IsTotal Squashfs dataGe := by
  constructor
  intro a b
  by_cases h : cmpOptStr b.data a.data = Ordering.gt
  · right
    unfold dataGe
    rw [cmpOptStr_swap, h]
    simp [Ordering.swap]
  · left
    exact h

instance : IsTrans Squashfs dataGe := by
  constructor
  intro a b c hab hbc
  exact cmpOptStr_le_trans hbc hab

/-- The result of `selectSquashfs` is `none` exactly when the
architecture-filtered candidate list is empty. -/
lemma selectSquashfs_eq_none_iff (archName : Option String) (v : Variant) :
    selectSquashfs archName v = none ↔ squashfsCandidates archName v = [] := by
  unfold selectSquashfs
  constructor
  · intro h
    have hp := List.perm_insertionSort dataGe (squashfsCandidates archName v)
    cases hc : List.insertionSort dataGe (squashfsCandidates archName v) with
    | nil =>
      rw [hc] at hp
      exact hp.symm.eq_nil
    | cons a tl =>
      rw [hc] at h
      simp at h
  · intro h
    rw [h]
    rfl

/-- A selected asset is one of the candidates and its build tag is maximal
among the candidates. -/
lemma selectSquashfs_mem_max (archName : Option String) (v : Variant) (s : Squashfs)
    (h : selectSquashfs archName v = some s) :
    s ∈ squashfsCandidates archName v ∧
      ∀ t ∈ squashfsCandidates archName v, dataGe s t := by
  unfold selectSquashfs at h
  set L := List.insertionSort dataGe (squashfsCandidates archName v) with hL
  have hperm := List.perm_insertionSort dataGe (squashfsCandidates archName v)
  have hsorted := List.sorted_insertionSort dataGe (squashfsCandidates archName v)
  rw [← hL] at hperm hsorted
  cases hc : L with
  | nil => rw [hc] at h; exact absurd h (by simp)
  | cons a tl =>
    rw [hc] at h
    simp only [List.head?_cons, Option.some.injEq] at h
    subst h
    rw [hc] at hperm hsorted
    rw [List.sorted_cons] at hsorted
    constructor
    · exact hperm.mem_iff.mp (List.mem_cons_self _ _)
    · intro t ht
      have hmem := hperm.mem_iff.mpr ht
      rcases List.mem_cons.mp hmem with h1 | h2
      · rw [h1]
        exact cmpOptStr_not_gt_refl _
      · exact hsorted.1 t h2

/-! ### Claim theorems -/

/-- C1: for every variant and host architecture, asset selection filters the
variant's assets to those whose `arch` equals the host's resolved
architecture name, then fails when the filtered set is empty and otherwise
returns a filtered entry whose build tag is greatest (the head of the
descending sort); in particular on the scenario A asset list with an arm64
host it returns the `20240202` entry. -/
theorem c1_asset_selection :
    (∀ (hostArch : String) (v : Variant),
      (squashfsCandidates (get_arch_name hostArch) v = [] →
        selectSquashfs (get_arch_name hostArch) v = none) ∧
      (squashfsCandidates (get_arch_name hostArch) v ≠ [] →
        ∃ s, selectSquashfs (get_arch_name hostArch) v = some s ∧
          s ∈ squashfsCandidates (get_arch_name hostArch) v ∧
          ∀ t ∈ squashfsCandidates (get_arch_name hostArch) v, dataGe s t)) ∧
    selectSquashfs (get_arch_name "aarch64") scenarioA_variant = some scenarioA_a2 := by
  constructor
  · intro hostArch v
    constructor
    · intro h
      exact (selectSquashfs_eq_none_iff _ _).mpr h
    · intro h
      cases hs : selectSquashfs (get_arch_name hostArch) v with
      | none => exact absurd ((selectSquashfs_eq_none_iff _ _).mp hs) h
      | some s =>
        obtain ⟨hmem, hmax⟩ := selectSquashfs_mem_max _ _ s hs
        exact ⟨s, rfl, hmem, hmax⟩
  · decide

/-- Witness for C1: on the scenario A variant with an arm64 host the
filtered set is non-empty and a maximal entry is selected. -/
theorem c1_asset_selection_witness :
    squashfsCandidates (get_arch_name "aarch64") scenarioA_variant ≠ [] ∧
    (∃ s, selectSquashfs (get_arch_name "aarch64") scenarioA_variant = some s ∧
      s ∈ squashfsCandidates (get_arch_name "aarch64") scenarioA_variant ∧
      ∀ t ∈ squashfsCandidates (get_arch_name "aarch64") scenarioA_variant, dataGe s t) :=
  ⟨by decide, (c1_asset_selection.1 "aarch64" scenarioA_variant).2 (by decide)⟩

/-- C10: whenever the architecture-filtered asset list contains an asset
with a present build tag, the selected asset has a present build tag,
because `None` orders below every `Some` in the descending sort. -/
theorem c10_untagged_sorts_below_tagged :
    ∀ (archName : Option String) (v : Variant) (x : Squashfs),
      x ∈ squashfsCandidates archName v → x.data.isSome = true →
      ∃ s, selectSquashfs archName v = some s ∧ s.data.isSome = true := by
  intro archName v x hx hxsome
  cases hs : selectSquashfs archName v with
  | none =>
    have hnil : squashfsCandidates archName v = [] := (selectSquashfs_eq_none_iff _ _).mp hs
    rw [hnil] at hx
    cases hx
  | some s =>
    refine ⟨s, rfl, ?_⟩
    obtain ⟨hmem, hmax⟩ := selectSquashfs_mem_max _ _ s hs
    have hge := hmax x hx
    cases hsd : s.data with
    | some _ => rfl
    | none =>
      cases hxd : x.data with
      | none =>
        rw [hxd] at hxsome
        simp at hxsome
      | some a =>
        unfold dataGe at hge
        rw [hxd, hsd] at hge
        exact absurd rfl hge

/-- Witness for C10: the variant listing an untagged arm64 asset before a
tagged one still selects an asset with a present tag. -/
theorem c10_untagged_sorts_below_tagged_witness :
    ∃ s, selectSquashfs (some "arm64") c10_variant = some s ∧ s.data.isSome = true :=
  c10_untagged_sorts_below_tagged (some "arm64") c10_variant c10_tagged (by decide) (by decide)

/-- C2: every daemon response that decodes to an envelope with
`result: Error` makes the adapter (`TryFrom<String> for Dbus`, and hence
`Dbus::run`) fail, carrying the envelope's `data` payload unchanged; the
data is never returned as a success value. -/
theorem c2_error_envelope_fails :
    ∀ d : Dbus, d.result = DbusResult.Error →
      Dbus.tryFromParsed (some d) = Except.error (RunFailure.queryFailed d.data) ∧
      Dbus.runParsed (some d) = Except.error (RunFailure.queryFailed d.data) := by
  intro d h
  obtain ⟨r, dat⟩ := d
  cases h
  exact ⟨rfl, rfl⟩

/-- Witness for C2 at a concrete error envelope. -/
theorem c2_error_envelope_fails_witness :
    Dbus.tryFromParsed (some c2_envelope) =
      Except.error (RunFailure.queryFailed (Value.str "boom")) ∧
    Dbus.runParsed (some c2_envelope) =
      Except.error (RunFailure.queryFailed (Value.str "boom")) :=
  c2_error_envelope_fails c2_envelope rfl

/-- C3: the progress monitor stops at the first `Finish` or `Error`
observation — the run is unchanged by whatever would be polled afterwards
and the number of `get_progress` calls is the position of the first
terminal observation plus one; on `Error` it fails with the observed
payload and on `Finish` it succeeds. -/
theorem c3_monitor_stops_at_first_terminal :
    ∀ (pre : List ProgressStatus) (t : ProgressStatus) (post : List ProgressStatus),
      (∀ s ∈ pre, isTerminal s = false) → isTerminal t = true →
      get_progress (pre ++ t :: post) = get_progress (pre ++ [t]) ∧
      (get_progress (pre ++ t :: post)).polls = pre.length + 1 ∧
      (∀ e, t = ProgressStatus.Error e →
        (get_progress (pre ++ t :: post)).outcome = MonitorOutcome.failure e) ∧
      (t = ProgressStatus.Finish →
        (get_progress (pre ++ t :: post)).outcome = MonitorOutcome.success) := by
  intro pre
  induction pre with
  | nil =>
    intro t post hpre ht
    cases t with
    | Pending => simp [isTerminal] at ht
    | Working step progress v => simp [isTerminal] at ht
    | Error e =>
      refine ⟨rfl, rfl, ?_, ?_⟩
      · intro e' he
        cases he
        rfl
      · intro he
        exact ProgressStatus.noConfusion he
    | Finish =>
      refine ⟨rfl, rfl, ?_, ?_⟩
      · intro e' he
        exact ProgressStatus.noConfusion he
      · intro _
        rfl
  | cons s pre ih =>
    intro t post hpre ht
    have hs := hpre s (List.mem_cons_self _ _)
    have hpre' : ∀ x ∈ pre, isTerminal x = false :=
      fun x hx => hpre x (List.mem_cons_of_mem _ hx)
    obtain ⟨ih1, ih2, ih3, ih4⟩ := ih t post hpre' ht
    cases s with
    | Error e => simp [isTerminal] at hs
    | Finish => simp [isTerminal] at hs
    | Pending =>
      refine ⟨?_, ?_, ?_, ?_⟩
      · show (⟨(get_progress (pre ++ t :: post)).events,
            (get_progress (pre ++ t :: post)).outcome,
            (get_progress (pre ++ t :: post)).polls + 1⟩ : MonitorRun) =
          ⟨(get_progress (pre ++ [t])).events, (get_progress (pre ++ [t])).outcome,
            (get_progress (pre ++ [t])).polls + 1⟩
        rw [ih1]
      · show (get_progress (pre ++ t :: post)).polls + 1 = (pre.length + 1) + 1
        rw [ih2]
      · intro e' he
        show (get_progress (pre ++ t :: post)).outcome = MonitorOutcome.failure e'
        exact ih3 e' he
      · intro he
        show (get_progress (pre ++ t :: post)).outcome = MonitorOutcome.success
        exact ih4 he
    | Working step progress v =>
      refine ⟨?_, ?_, ?_, ?_⟩
      · show (⟨MonitorEvent.update step progress :: MonitorEvent.sleep ::
              (get_progress (pre ++ t :: post)).events,
            (get_progress (pre ++ t :: post)).outcome,
            (get_progress (pre ++ t :: post)).polls + 1⟩ : MonitorRun) =
          ⟨MonitorEvent.update step progress :: MonitorEvent.sleep ::
              (get_progress (pre ++ [t])).events,
            (get_progress (pre ++ [t])).outcome, (get_progress (pre ++ [t])).polls + 1⟩
        rw [ih1]
      · show (get_progress (pre ++ t :: post)).polls + 1 = (pre.length + 1) + 1
        rw [ih2]
      · intro e' he
        show (get_progress (pre ++ t :: post)).outcome = MonitorOutcome.failure e'
        exact ih3 e' he
      · intro he
        show (get_progress (pre ++ t :: post)).outcome = MonitorOutcome.success
        exact ih4 he

/-- Witness for C3: after `Pending, Working(1,10)` an `Error` observation
ends the run with its payload; a trailing `Finish` is never polled. -/
theorem c3_monitor_stops_at_first_terminal_witness :
    get_progress ([ProgressStatus.Pending, ProgressStatus.Working 1 10 0] ++
        ProgressStatus.Error c3_payload :: [ProgressStatus.Finish]) =
      get_progress ([ProgressStatus.Pending, ProgressStatus.Working 1 10 0] ++
        [ProgressStatus.Error c3_payload]) ∧
    (get_progress ([ProgressStatus.Pending, ProgressStatus.Working 1 10 0] ++
        ProgressStatus.Error c3_payload :: [ProgressStatus.Finish])).polls = 3 ∧
    (∀ e, ProgressStatus.Error c3_payload = ProgressStatus.Error e →
      (get_progress ([ProgressStatus.Pending, ProgressStatus.Working 1 10 0] ++
        ProgressStatus.Error c3_payload :: [ProgressStatus.Finish])).outcome =
        MonitorOutcome.failure e) ∧
    (ProgressStatus.Error c3_payload = ProgressStatus.Finish →
      (get_progress ([ProgressStatus.Pending, ProgressStatus.Working 1 10 0] ++
        ProgressStatus.Error c3_payload :: [ProgressStatus.Finish])).outcome =
        MonitorOutcome.success) :=
  c3_monitor_stops_at_first_terminal [ProgressStatus.Pending, ProgressStatus.Working 1 10 0]
    (ProgressStatus.Error c3_payload) [ProgressStatus.Finish] (by decide) rfl

/-- C8: on the scenario B sequence the monitor performs exactly the two
intermediate updates `(1,50)` and `(2,80)` (each followed by the inter-poll
sleep), no event at all for the two `Pending` observations — in particular
no sleep, since `continue` skips it — and then reports success after five
polls. -/
theorem c8_scenario_progress :
    get_progress c8_sequence =
      ⟨[MonitorEvent.update 1 50, MonitorEvent.sleep, MonitorEvent.update 2 80,
        MonitorEvent.sleep], MonitorOutcome.success, 5⟩ ∧
    ((get_progress c8_sequence).events.filter isUpdate).length = 2 := by
  exact ⟨rfl, rfl⟩

/-- C4: whenever the configuration push completes, the `set_config` calls
it issued are exactly, in order: download, locale, user, timezone,
hostname, rtc_as_localtime, swapfile, target_partition, and finally
efi_partition exactly when an EFI partition is present — independently of
how the choices were gathered. -/
theorem c4_fixed_push_order :
    ∀ (archName : Option String) (config : InstallConfig) (calls : List (String × CfgValue)),
      set_config archName config = SetConfigResult.ok calls →
      calls.map Prod.fst =
        ["download", "locale", "user", "timezone", "hostname", "rtc_as_localtime",
          "swapfile", "target_partition"] ++
          (match config.efi_disk with
            | some _ => ["efi_partition"]
            | none => []) := by
  intro archName config calls h
  unfold set_config at h
  split at h
  · exact absurd h (by simp)
  · split at h
    · exact absurd h (by simp)
    · injection h with hcalls
      subst hcalls
      cases config.efi_disk with
      | none => simp
      | some efi => simp

/-- Witness for C4 at `c4_config` (EFI partition present). -/
theorem c4_fixed_push_order_witness :
    c4_calls.map Prod.fst =
      ["download", "locale", "user", "timezone", "hostname", "rtc_as_localtime",
        "swapfile", "target_partition"] ++
        (match c4_config.efi_disk with
          | some _ => ["efi_partition"]
          | none => []) :=
  c4_fixed_push_order (get_arch_name "aarch64") c4_config c4_calls (by decide)

/-- C6 counterexample: in offline mode with `dir_name: None` (and an asset
matching the host architecture, so asset selection succeeds), `set_config`
does not return an error to the caller — it panics on
`config.variant.dir_name.as_ref().unwrap()`. -/
theorem c6_counterexample :
    set_config (get_arch_name "aarch64") c6_config = SetConfigResult.panicked := by
  decide

/-- C6 (amended): for every offline-mode configuration whose variant has no
directory name, once asset selection succeeds the configuration push panics
(aborts on `unwrap`) instead of producing a download descriptor or
returning an error. -/
theorem c6_offline_missing_dirname_panics :
    ∀ (archName : Option String) (config : InstallConfig) (sq : Squashfs),
      config.offline_install = true →
      config.variant.dir_name = none →
      selectSquashfs archName config.variant = some sq →
      set_config archName config = SetConfigResult.panicked := by
  intro archName config sq hoff hdir hsel
  have hdl : downloadValue config sq = none := by
    unfold downloadValue
    rw [hoff, hdir]
    rfl
  unfold set_config
  split
  · rename_i heq
    rw [hsel] at heq
    exact absurd heq (by simp)
  · rename_i sqfs heq
    rw [hsel] at heq
    injection heq with heq2
    subst heq2
    split
    · rfl
    · rename_i dl hdl2
      rw [hdl] at hdl2
      exact absurd hdl2 (by simp)

/-- Witness for C6 (amended) at `c6_config`. -/
theorem c6_offline_missing_dirname_panics_witness :
    set_config (some "arm64") c6_config = SetConfigResult.panicked :=
  c6_offline_missing_dirname_panics (some "arm64") c6_config
    ⟨"arm64", some "20240101", 1, 2, "os-arm64/c.squashfs", "sc", 3⟩ rfl rfl (by decide)

/-- C7 counterexample: the value the code pushes for `swapfile` is the
string `"Disable"` serialised as a JSON string (the 9-character literal
`"\"Disable\""`), not the literal `disabled` marker the claim names — in
either spelling. -/
theorem c7_counterexample :
    set_config (get_arch_name "aarch64") c4_config = SetConfigResult.ok c4_calls ∧
    c4_calls.filter (fun c => c.1 == "swapfile") =
      [("swapfile", CfgValue.str "\"Disable\"")] ∧
    CfgValue.str "\"Disable\"" ≠ CfgValue.str "disabled" ∧
    CfgValue.str "\"Disable\"" ≠ CfgValue.str "\"disabled\"" := by
  decide

/-- C7 (amended): whenever the configuration push completes, exactly one
`swapfile` field is pushed and its value is the constant JSON string
`"Disable"` (pushed as the text `"\"Disable\""`), independent of any user
choice. -/
theorem c7_swapfile_constant :
    ∀ (archName : Option String) (config : InstallConfig) (calls : List (String × CfgValue)),
      set_config archName config = SetConfigResult.ok calls →
      calls.filter (fun c => c.1 == "swapfile") =
        [("swapfile", CfgValue.str "\"Disable\"")] := by
  intro archName config calls h
  unfold set_config at h
  split at h
  · exact absurd h (by simp)
  · split at h
    · exact absurd h (by simp)
    · injection h with hcalls
      subst hcalls
      cases config.efi_disk with
      | none => simp
      | some efi => simp

/-- Witness for C7 (amended) at `c4_config`. -/
theorem c7_swapfile_constant_witness :
    c4_calls.filter (fun c => c.1 == "swapfile") =
      [("swapfile", CfgValue.str "\"Disable\"")] :=
  c7_swapfile_constant (get_arch_name "aarch64") c4_config c4_calls (by decide)

/-- C5 counterexample: with an LVM-backed device the run does fail with the
unsupported-device error, but only after `get_list_partitions` (and
`is_efi`) have already been requested — the partition listing is requested
before the LVM check, contradicting "before the device's partition listing
is requested". -/
theorem c5_counterexample :
    inquire c5_env =
      ([DkCall.listDevice, DkCall.listPartitions "/dev/sda", DkCall.isEFI,
        DkCall.isLvmDevice "/dev/sda"],
        InquireOutcome.err "Installer unsupport LVM Device.") ∧
    DkCall.listPartitions "/dev/sda" ∈ (inquire c5_env).1 := by
  decide

/-- C5 (amended): for every session whose chosen device is LVM-backed, the
flow fails with the unsupported-device error right after the LVM query; by
then `get_list_partitions` and `is_efi` have already been requested, but
the partition listing is never used — the run ends with exactly these four
daemon calls and no partition prompt. -/
theorem c5_lvm_check_after_partition_listing :
    ∀ (env : InquireEnv) (v : Variant),
      env.is_lvm_device = true →
      (env.recipe.variants.find? fun x => x.name == env.variant_choice) = some v →
      inquire env =
        ([DkCall.listDevice, DkCall.listPartitions env.device_choice, DkCall.isEFI,
          DkCall.isLvmDevice env.device_choice],
          InquireOutcome.err "Installer unsupport LVM Device.") := by
  intro env v hlvm hv
  simp [inquire, hv, hlvm]

/-- Witness for C5 (amended) at `c5_env`. -/
theorem c5_lvm_check_after_partition_listing_witness :
    inquire c5_env =
      ([DkCall.listDevice, DkCall.listPartitions c5_env.device_choice, DkCall.isEFI,
        DkCall.isLvmDevice c5_env.device_choice],
        InquireOutcome.err "Installer unsupport LVM Device.") :=
  c5_lvm_check_after_partition_listing c5_env c5_variant rfl (by decide)

/-- C9: on an EFI host the chosen ESP path is resolved by searching the
target device's partition list (`get_list_partitions` result), not the ESP
list itself; if no device-list partition has the chosen path the `unwrap`
panics, and otherwise the configuration stores the device-list entry. -/
theorem c9_esp_lookup_uses_device_partitions :
    ∀ (env : InquireEnv) (v : Variant) (p : DkPartition),
      (env.recipe.variants.find? fun x => x.name == env.variant_choice) = some v →
      env.is_lvm_device = false →
      findPartitionByPath env.partitions env.partition_choice = some p →
      env.is_efi = true →
      env.esp_parts ≠ [] →
      (∃ esp ∈ env.esp_parts, esp.path = some env.efi_choice) →
      ((∀ q ∈ env.partitions, q.path ≠ some env.efi_choice) →
        (inquire env).2 = InquireOutcome.panicked) ∧
      (∀ (e : DkPartition) (loc : Locale),
        findPartitionByPath env.partitions env.efi_choice = some e →
        (env.locales.find? fun x => x.text == env.locale_choice) = some loc →
        (inquire env).2 = InquireOutcome.ok
          ⟨env.is_offline_install, v, env.fullname, env.username, env.password,
            env.hostname, env.timezone, env.rtc_as_localtime, p, some e,
            loc.data⟩) := by
  intro env v p hv hlvm hp hefi hne _hsel
  have hempty : env.esp_parts.isEmpty = false := by
    cases h : env.esp_parts with
    | nil => exact absurd h hne
    | cons a l => rfl
  constructor
  · intro habsent
    have hnone : findPartitionByPath env.partitions env.efi_choice = none := by
      unfold findPartitionByPath
      rw [List.find?_eq_none]
      intro x hx
      have hxne := habsent x hx
      cases hxp : x.path with
      | none => simp
      | some q =>
        rw [hxp] at hxne
        simp at hxne ⊢
        exact hxne
    simp [inquire, hv, hlvm, hp, hefi, hempty, hnone]
  · intro e loc he hloc
    simp [inquire, hv, hlvm, hp, hefi, hempty, he, hloc]

/-- Witness for C9 at `c9_env`: the stored EFI partition is the entry of
the device partition list (`c9_dev_entry`), not the distinct ESP-list view
of the same path (`c9_esp_entry`). -/
theorem c9_esp_lookup_uses_device_partitions_witness :
    (inquire c9_env).2 = InquireOutcome.ok
      ⟨c9_env.is_offline_install, c5_variant, c9_env.fullname, c9_env.username,
        c9_env.password, c9_env.hostname, c9_env.timezone, c9_env.rtc_as_localtime,
        c9_target, some c9_dev_entry, c9_locale.data⟩ :=
  (c9_esp_lookup_uses_device_partitions c9_env c5_variant c9_target (by decide) rfl
    (by decide) rfl (by decide) ⟨c9_esp_entry, by decide, by decide⟩).2
    c9_dev_entry c9_locale (by decide) (by decide)

end Dkcli
